import Mathlib

/-
Verification of the deployed-tester console (`dep.py`): a Streamlit chat UI
around a single orchestration HTTP endpoint.  The development shallowly embeds
the pure logic of the script: JSON values as an inductive type, the response
normalizer (`_normalize_nested_json`, `_prepare_response_content`), the API
client result classification (`make_api_request`), and the per-mode
conversation-controller steps (ask, booking chat, post consultation, MCQ
submission, upload metrics).  External collaborators (the `json` module's
parser, the HTTP layer) are parameters: `loads : String → Option JVal` models
`json.loads` (none = raised JSONDecodeError), and each controller step takes
the outcome of its one API call as an argument.
-/

namespace OrchPoc

/-- JSON values as handled by Python's `json` module: null, booleans, numbers
(modelled as integers; no fractional literals occur in the modelled payloads),
strings, arrays, and objects with insertion-ordered keys (Python dicts). -/
inductive JVal where
  | null : JVal
  | bool (b : Bool) : JVal
  | num (n : Int) : JVal
  | str (s : String) : JVal
  | arr (items : List JVal) : JVal
  | obj (fields : List (String × JVal)) : JVal
deriving Repr

/-- Structural decidable equality for `JVal`, mirroring Python `==` on parsed
JSON values (used by `dict.get(...) == ...` and `list.index`). -/
def JVal.beq : JVal → JVal → Bool
  | .null, .null => true
  | .bool a, .bool b => a == b
  | .num a, .num b => a == b
  | .str a, .str b => a == b
  | .arr a, .arr b => beqList a b
  | .obj a, .obj b => beqFields a b
  | _, _ => false
where
  beqList : List JVal → List JVal → Bool
    | [], [] => true
    | x :: xs, y :: ys => JVal.beq x y && beqList xs ys
    | _, _ => false
  beqFields : List (String × JVal) → List (String × JVal) → Bool
    | [], [] => true
    | (k, x) :: xs, (l, y) :: ys => k == l && JVal.beq x y && beqFields xs ys
    | _, _ => false

mutual

theorem JVal.beq_iff : ∀ a b : JVal, JVal.beq a b = true ↔ a = b
  | .null, b => by cases b <;> simp [JVal.beq]
  | .bool x, b => by cases b <;> simp [JVal.beq]
  | .num x, b => by cases b <;> simp [JVal.beq]
  | .str x, b => by cases b <;> simp [JVal.beq]
  | .arr xs, b => by
      cases b <;> simp only [JVal.beq, Bool.false_eq_true, false_iff] <;>
        try exact fun h => JVal.noConfusion h
      rename_i ys
      rw [JVal.beqList_iff xs ys]
      exact ⟨fun h => by rw [h], fun h => by cases h; rfl⟩
  | .obj xs, b => by
      cases b <;> simp only [JVal.beq, Bool.false_eq_true, false_iff] <;>
        try exact fun h => JVal.noConfusion h
      rename_i ys
      rw [JVal.beqFields_iff xs ys]
      exact ⟨fun h => by rw [h], fun h => by cases h; rfl⟩

theorem JVal.beqList_iff : ∀ xs ys : List JVal, JVal.beq.beqList xs ys = true ↔ xs = ys
  | [], [] => by simp [JVal.beq.beqList]
  | [], _ :: _ => by simp [JVal.beq.beqList]
  | _ :: _, [] => by simp [JVal.beq.beqList]
  | x :: xs, y :: ys => by
      simp only [JVal.beq.beqList, Bool.and_eq_true, List.cons.injEq]
      rw [JVal.beq_iff x y, JVal.beqList_iff xs ys]

theorem JVal.beqFields_iff :
    ∀ xs ys : List (String × JVal), JVal.beq.beqFields xs ys = true ↔ xs = ys
  | [], [] => by simp [JVal.beq.beqFields]
  | [], _ :: _ => by simp [JVal.beq.beqFields]
  | _ :: _, [] => by simp [JVal.beq.beqFields]
  | (k, x) :: xs, (l, y) :: ys => by
      simp only [JVal.beq.beqFields, Bool.and_eq_true, List.cons.injEq, beq_iff_eq,
        Prod.mk.injEq]
      rw [JVal.beq_iff x y, JVal.beqFields_iff xs ys]

end

instance : DecidableEq JVal := fun a b =>
  decidable_of_iff (JVal.beq a b = true) (JVal.beq_iff a b)

/-- First-match lookup in an insertion-ordered field list: Python `dict.get(key)`
returning `none` when the key is absent (Python dicts have unique keys; lookup
of the first occurrence agrees on such lists). -/
def jget : List (String × JVal) → String → Option JVal
  | [], _ => none
  | (k, v) :: rest, key => if k = key then some v else jget rest key

/-- Python `dict.get(key)` with its `None` default materialised as `JVal.null`. -/
def jgetD (fields : List (String × JVal)) (key : String) : JVal :=
  (jget fields key).getD .null

/-- Python truthiness of a JSON value (`if value:`). -/
def pyTruthy : JVal → Bool
  | .null => false
  | .bool b => b
  | .num n => n != 0
  | .str s => s != ""
  | .arr l => !l.isEmpty
  | .obj l => !l.isEmpty

/-- Python `a or b` on JSON values: `b` when `a` is falsy, else `a`. -/
def pyOr (a b : JVal) : JVal := if pyTruthy a then a else b

/-- Membership of a value in the emptiness tuple tested by
`_prepare_response_content._add`: true exactly for `null`, `""`, `[]` and the
empty mapping (numbers and booleans compare unequal to all four under
Python `==`). -/
def emptyLike : JVal → Bool
  | .null => true
  | .str s => s == ""
  | .arr l => l.isEmpty
  | .obj l => l.isEmpty
  | _ => false

/-- One iteration of the `for _ in range(3)` body of `_normalize_nested_json`
(dep.py lines 59-85), split out of the answer-field branch: given the
already-string-unwrapped current value `v` with fields `fields`, try the inner
`answer` JSON string; `.inr w` models `continue` with new value `w`, `.inl v`
models `break`. -/
def nnjAnswerPhase (loads : String → Option JVal) (fields : List (String × JVal)) (v : JVal) :
    JVal ⊕ JVal :=
  match jgetD fields "answer" with
  | .str s =>
      if (s.trim).startsWith "\x7b" then
        match loads s with
        | some w => .inr w
        | none => .inl v
      else .inl v
  | _ => .inl v

/-- One iteration of the loop body of `_normalize_nested_json` (dep.py lines
59-85).  `.inl w` means the body reached `break` (or fell off the end of the
dict checks) with value `w`; `.inr w` means the body executed `continue` with
new value `w`.  A string is first decoded (a failed decode breaks with the
string itself); a dict then tries its `response` field as a JSON string, then
its `answer` field when it looks like an object. -/
def nnjPass (loads : String → Option JVal) (current : JVal) : JVal ⊕ JVal :=
  match current with
  | .str s =>
      match loads s with
      | none => .inl current
      | some v => nnjDictPhase loads v
  | v => nnjDictPhase loads v
where
  nnjDictPhase (loads : String → Option JVal) (v : JVal) : JVal ⊕ JVal :=
    match v with
    | .obj fields =>
        match jgetD fields "response" with
        | .str s =>
            match loads s with
            | some w => .inr w
            | none => nnjAnswerPhase loads fields v
        | _ => nnjAnswerPhase loads fields v
    | _ => .inl v

/-- The bounded unwrap loop of `_normalize_nested_json` with explicit remaining
iteration count: `continue` consumes one iteration, `break` returns. -/
def nnjRun (loads : String → Option JVal) : Nat → JVal → JVal
  | 0, v => v
  | n + 1, v =>
      match nnjPass loads v with
      | .inl w => w
      | .inr w => nnjRun loads n w

/-- Embedding of `_normalize_nested_json` (dep.py lines 55-86): best-effort
unwrap of double-encoded payloads, at most 3 loop iterations.  `loads` models
`json.loads` (`none` = raised `JSONDecodeError`/`TypeError`). -/
def _normalize_nested_json (loads : String → Option JVal) (payload : JVal) : JVal :=
  nnjRun loads 3 payload

/-- Chains of `n` consecutive `continue` iterations of the unwrap loop:
`some v'` when starting from `v` the first `n` passes all continue, ending at
`v'`; `none` when some earlier pass breaks. -/
def nnjContIter (loads : String → Option JVal) : Nat → JVal → Option JVal
  | 0, v => some v
  | n + 1, v =>
      match nnjPass loads v with
      | .inr w => nnjContIter loads n w
      | .inl _ => none

/-- Escape of a single character inside a JSON string literal, as Python's
`json.dumps` renders it (backslash, quote, and the common control characters;
the modelled payloads contain no other control characters and `ensure_ascii`
escaping of non-ASCII text is outside the modelled scope). -/
def escChar (c : Char) : String :=
  if c = '\\' then "\\\\"
  else if c = '\"' then "\\\""
  else if c = '\n' then "\\n"
  else if c = '\t' then "\\t"
  else if c = '\r' then "\\r"
  else String.singleton c

/-- JSON string-literal escaping (body of the quoted string). -/
def jsonEscape (s : String) : String := String.join (s.toList.map escChar)

/-- Model of Python's `json.dumps` with default arguments: item separator
`", "`, key separator `": "`, insertion key order preserved (no `sort_keys`). -/
def dumps : JVal → String
  | .null => "null"
  | .bool true => "true"
  | .bool false => "false"
  | .num n => toString n
  | .str s => "\"" ++ jsonEscape s ++ "\""
  | .arr l => "[" ++ String.intercalate ", " (dumpsList l) ++ "]"
  | .obj l => "\x7b" ++ String.intercalate ", " (dumpsFields l) ++ "\x7d"
where
  dumpsList : List JVal → List String
    | [] => []
    | v :: rest => dumps v :: dumpsList rest
  dumpsFields : List (String × JVal) → List String
    | [] => []
    | (k, v) :: rest => ("\"" ++ jsonEscape k ++ "\": " ++ dumps v) :: dumpsFields rest

/-- The fixed allow-list iterated by `_prepare_response_content` (dep.py lines
106-123), in source order. -/
def prcAllowList : List String :=
  ["answer", "question_type", "mcq_question", "mcq_options", "booking_context",
   "assessment_progress", "recommendations", "next_steps", "sources", "success",
   "treatment_plan", "additional_recommendations", "warnings", "products",
   "lab_tests", "chat_summary"]

/-- The `payload` dict built by `_prepare_response_content` before its
fallbacks: each allow-list field, then the legacy keys `status` and `response`
(dep.py lines 96-130), copied through exactly when present and not
`None`/`""`/`[]`/`\x7b\x7d`.  The loop's `continue` on empty containers and
`_add`' s own emptiness test (no call ever passes an `alias`, so that branch of
`_add` is dead) collapse to this single filter. -/
def prcProjected (fields : List (String × JVal)) : List (String × JVal) :=
  (prcAllowList ++ ["status", "response"]).filterMap fun k =>
    match jget fields k with
    | some v => if emptyLike v then none else some (k, v)
    | none => none

/-- Final fallback of `_prepare_response_content` (dep.py lines 139-145): when
nothing was collected and the `response` fallback did not produce output, an
`answer` key (whatever its value, even `None`) becomes a one-field payload;
otherwise the whole original mapping is dumped verbatim. -/
def prcAnswerFallback (fields : List (String × JVal)) : String :=
  match jget fields "answer" with
  | some v => dumps (.obj [("answer", v)])
  | none => dumps (.obj fields)

theorem jget_sizeOf {fields : List (String × JVal)} {key : String} {v : JVal}
    (h : jget fields key = some v) : sizeOf v < sizeOf fields := by
  induction fields with
  | nil => simp [jget] at h
  | cons p rest ih =>
      obtain ⟨k, w⟩ := p
      rw [jget] at h
      by_cases hk : k = key
      · rw [if_pos hk] at h
        injection h with h
        subst h
        simp
        omega
      · simp only [if_neg hk] at h
        have := ih h
        simp
        omega

/-- Embedding of `_prepare_response_content` (dep.py lines 89-145): strings
pass through, non-dicts are dumped, and dicts are projected through the
allow-list; when nothing is collected, fall back to the raw `response` value
(recursing into structured ones), then to the raw `answer` value, then to the
whole mapping. -/
def _prepare_response_content : JVal → String
  | .str s => s
  | .null => dumps .null
  | .bool b => dumps (.bool b)
  | .num n => dumps (.num n)
  | .arr l => dumps (.arr l)
  | .obj fields =>
      let payload := prcProjected fields
      if payload.isEmpty then
        match hr : jget fields "response" with
        | some (.obj g) => _prepare_response_content (.obj g)
        | some (.arr l) => _prepare_response_content (.arr l)
        | some inner =>
            if emptyLike inner then prcAnswerFallback fields
            else dumps (.obj [("response", inner)])
        | none => prcAnswerFallback fields
      else dumps (.obj payload)
termination_by v => sizeOf v
decreasing_by
  · have := jget_sizeOf hr
    simp at this ⊢
    omega
  · have := jget_sizeOf hr
    simp at this ⊢
    omega

/-- Outcome of `requests.post` as seen by `make_api_request`: either a
response object with a status code and body text, or a raised
`requests.exceptions.RequestException` (covering network and timeout
failures) carrying its `str(e)` rendering. -/
inductive HttpOutcome where
  | response (status : Nat) (body : String) : HttpOutcome
  | exn (msg : String) : HttpOutcome
deriving DecidableEq, Repr

/-- Result dict of `make_api_request`: `\x7b"success": True, "data": ...\x7d` or
`\x7b"success": False, "error": ...\x7d`. -/
inductive ApiResult where
  | success (data : JVal) : ApiResult
  | failure (error : String) : ApiResult
deriving DecidableEq, Repr

/-- Embedding of `make_api_request` (dep.py lines 18-26).  `loads body` models
`resp.json()`; on a 200 response whose body is not valid JSON, `resp.json()`
raises `requests.exceptions.JSONDecodeError`, which (in requests >= 2.27, the
era of this code) subclasses `RequestException` and is therefore caught by the
function's own handler — `jsonErrMsg body` models that exception's `str`.
The function is total: no exception propagates to the caller. -/
def make_api_request (loads : String → Option JVal) (jsonErrMsg : String → String) :
    HttpOutcome → ApiResult
  | .response status body =>
      if status = 200 then
        match loads body with
        | some j => .success j
        | none => .failure ("Request failed: " ++ jsonErrMsg body)
      else .failure ("HTTP " ++ toString status ++ ": " ++ body)
  | .exn msg => .failure ("Request failed: " ++ msg)

/-- Chat roles of a stored turn. -/
inductive Role where
  | user : Role
  | assistant : Role
deriving DecidableEq, Repr

/-- A stored chat turn `\x7b"role": ..., "content": ...\x7d`.  Content is a
`JVal` because the scripts store strings but the render paths also tolerate
dict contents (`isinstance(content, (str, dict))`). -/
structure Turn where
  role : Role
  content : JVal
deriving DecidableEq, Repr

/-- An outbound request body (ordered JSON object). -/
abbrev Payload : Type := List (String × JVal)

/-- The post-consultation context captured by the Process button
(`st.session_state.post_ctx`). -/
structure PostCtx where
  slot_id : String
  post_text : String
deriving DecidableEq, Repr

/-- The slice of `st.session_state` that `render_mcq_if_present` consults:
the three conversation logs (`none` = key absent / value `None`), the
post-consultation context, and whether the key `"current_slot_id"` is present
in the session state. -/
structure SessionLogs where
  ask_history : Option (List Turn)
  booking_history : Option (List Turn)
  post_history : Option (List Turn)
  post_ctx : Option PostCtx
  has_current_slot_id : Bool
deriving DecidableEq, Repr

/-- Python truthiness of an optional string (`if slot_id:` where
`slot_id : str | None`). -/
def strTruthy : Option String → Bool
  | none => false
  | some s => s != ""

/-- User-turn append performed on MCQ submission (dep.py lines 270-276):
booking history when a truthy slot id is given, else post history when a
post-consultation context exists, else the ask history. -/
def mcqUserAppend (st : SessionLogs) (slot_id : Option String) (userMsg : Turn) :
    SessionLogs :=
  if strTruthy slot_id && st.booking_history.isSome then
    { st with booking_history := st.booking_history.map (· ++ [userMsg]) }
  else if st.post_ctx.isSome && st.post_history.isSome then
    { st with post_history := st.post_history.map (· ++ [userMsg]) }
  else if st.ask_history.isSome then
    { st with ask_history := st.ask_history.map (· ++ [userMsg]) }
  else st

/-- Assistant-turn append performed on a successful MCQ submission (dep.py
lines 298-302): two independent `if`s — booking history when
`"current_slot_id"` is a session key, and post history when a
post-consultation context exists.  The ask history is never appended to. -/
def mcqAssistantAppend (st : SessionLogs) (msg : Turn) : SessionLogs :=
  let st1 :=
    if st.has_current_slot_id && st.booking_history.isSome then
      { st with booking_history := st.booking_history.map (· ++ [msg]) }
    else st
  if st1.post_ctx.isSome && st1.post_history.isSome then
    { st1 with post_history := st1.post_history.map (· ++ [msg]) }
  else st1

/-- Outcome of one `render_mcq_if_present` invocation: the returned handled
flag, the session state afterwards, the outbound calls issued (payloads of
`make_api_request` invocations, in order), and the error text shown via
`st.error` (not appended to any log) when the call failed. -/
structure McqOutcome where
  handled : Bool
  state : SessionLogs
  calls : List Payload
  shownError : Option String
deriving DecidableEq, Repr

/-- Embedding of `render_mcq_if_present` (dep.py lines 245-307) for one render
cycle.  `submitted` models the Submit button being clicked this cycle and
`selected` the radio selection (`none` = nothing chosen).  Non-MCQ or
option-less payloads return unhandled; an un-clicked or empty submission
issues no call; a clicked submission with a truthy selection appends the user
turn, builds the payload (selected text as `input` and
`mcq_selected_option`, first index of the selection when found, the question
text, and the slot id when truthy) and issues exactly one call; on success the
normalized reply is appended per `mcqAssistantAppend`, on failure the error is
only shown.  Non-list truthy `mcq_options` (impossible for parsed JSON the
scripts receive) are treated as handled without a modelled submission. -/
def render_mcq_submit (loads : String → Option JVal) (sid uid : String)
    (raw_content : JVal) (slot_id : Option String) (submitted : Bool)
    (selected : Option JVal) (st : SessionLogs) (api : ApiResult) : McqOutcome :=
  match _normalize_nested_json loads raw_content with
  | .obj fields =>
      if jgetD fields "question_type" = .str "mcq" then
        let mcq_question := pyOr (jgetD fields "mcq_question") (.str "Please select an option:")
        let optv := pyOr (jgetD fields "mcq_options") (.arr [])
        if pyTruthy optv then
          match optv with
          | .arr opts =>
              if submitted then
                match selected with
                | some sel =>
                    if pyTruthy sel then
                      let userMsg : Turn := ⟨.user, sel⟩
                      let st1 := mcqUserAppend st slot_id userMsg
                      let base : List (String × JVal) :=
                        [("session_id", .str sid), ("user_id", .str uid),
                         ("input", sel), ("mcq_selected_option", sel)]
                      let withIdx :=
                        match opts.findIdx? (· = sel) with
                        | some i => base ++ [("mcq_selected_index", .num (Int.ofNat i))]
                        | none => base
                      let withQ := withIdx ++ [("mcq_question", mcq_question)]
                      let payload :=
                        match slot_id with
                        | some s => if s != "" then withQ ++ [("slot_id", .str s)] else withQ
                        | none => withQ
                      match api with
                      | .success data =>
                          let responseText := _prepare_response_content data
                          let st2 := mcqAssistantAppend st1 ⟨.assistant, .str responseText⟩
                          ⟨true, st2, [payload], none⟩
                      | .failure err => ⟨true, st1, [payload], some err⟩
                    else ⟨true, st, [], none⟩
                | none => ⟨true, st, [], none⟩
              else ⟨true, st, [], none⟩
          | _ => ⟨true, st, [], none⟩
        else ⟨false, st, [], none⟩
      else ⟨false, st, [], none⟩
  | _ => ⟨false, st, [], none⟩

/-- Embedding of the free-text turn of `ask_mode` (dep.py lines 326-353):
the chat input is rendered unconditionally; a truthy prompt appends the user
turn, issues exactly one call with `\x7bsession_id, user_id, input\x7d`, and
appends the normalized reply on success or `"Error: ..."` on failure. -/
def ask_mode_step (sid uid : String) (history : List Turn) (prompt : Option String)
    (api : ApiResult) : List Turn × List Payload :=
  match prompt with
  | none => (history, [])
  | some p =>
      if p = "" then (history, [])
      else
        let h1 := history ++ [⟨.user, .str p⟩]
        let payload : Payload :=
          [("session_id", .str sid), ("user_id", .str uid), ("input", .str p)]
        match api with
        | .success data =>
            (h1 ++ [⟨.assistant, .str (_prepare_response_content data)⟩], [payload])
        | .failure err =>
            (h1 ++ [⟨.assistant, .str ("Error: " ++ err)⟩], [payload])

/-- Lower-casing of one character in the ASCII range (Python `str.lower()`
restricted to the alphabet actually compared against the terminal markers). -/
def lowerChar (c : Char) : Char :=
  if 'A' ≤ c ∧ c ≤ 'Z' then Char.ofNat (c.toNat + 32) else c

/-- Model of Python's `str.lower()` (ASCII scope; the terminal markers it is
compared against are ASCII). -/
def pyLower (s : String) : String := String.mk (s.data.map lowerChar)

/-- Terminal-progress test of the booking gate (dep.py lines 417-418):
`parsed.get("assessment_progress") or parsed.get("status")` must be a string
whose lower-casing is `"end"`, `"complete"` or `"completed"`. -/
def terminalProgress (fields : List (String × JVal)) : Bool :=
  match pyOr (jgetD fields "assessment_progress") (jgetD fields "status") with
  | .str p => ["end", "complete", "completed"].contains (pyLower p)
  | _ => false

/-- The booking-mode free-text gate (dep.py lines 404-422): free input is
shown unless the last stored turn is an assistant turn whose normalized
content is a dict that either has `question_type == "mcq"` or reports a
terminal progress/status. -/
def bookingShowFreeInput (loads : String → Option JVal) (history : List Turn) : Bool :=
  match history.getLast? with
  | none => true
  | some last =>
      match last.role with
      | .assistant =>
          match _normalize_nested_json loads last.content with
          | .obj fields =>
              !(decide (jgetD fields "question_type" = .str "mcq") || terminalProgress fields)
          | _ => true
      | .user => true

/-- Embedding of the automatic booking bootstrap call (dep.py lines 373-388):
with a slot id set and an empty booking history, exactly one call is issued
whose payload is `\x7bsession_id, user_id, slot_id\x7d` with no `input` key. -/
def booking_autofetch (sid uid slot : String) (history : List Turn) : List Payload :=
  if history.isEmpty then
    [[("session_id", .str sid), ("user_id", .str uid), ("slot_id", .str slot)]]
  else []

/-- Embedding of the booking-mode free-text turn (dep.py lines 404-450):
guarded by `bookingShowFreeInput`; a truthy prompt appends the user turn,
issues exactly one call with `\x7bsession_id, user_id, input, slot_id\x7d`, and
appends the normalized reply on success or `"Error: ..."` on failure. -/
def booking_freetext_step (loads : String → Option JVal) (sid uid slot : String)
    (history : List Turn) (prompt : Option String) (api : ApiResult) :
    List Turn × List Payload :=
  if bookingShowFreeInput loads history then
    match prompt with
    | none => (history, [])
    | some p =>
        if p = "" then (history, [])
        else
          let h1 := history ++ [⟨.user, .str p⟩]
          let payload : Payload :=
            [("session_id", .str sid), ("user_id", .str uid), ("input", .str p),
             ("slot_id", .str slot)]
          match api with
          | .success data =>
              (h1 ++ [⟨.assistant, .str (_prepare_response_content data)⟩], [payload])
          | .failure err =>
              (h1 ++ [⟨.assistant, .str ("Error: " ++ err)⟩], [payload])
  else (history, [])

/-- Embedding of the post-consultation chat turn (dep.py lines 654-677): the
chat input is rendered unconditionally once a context is set; a truthy prompt
appends the user turn and issues exactly one call carrying the captured slot
id and notes; on success the normalized reply is appended, on failure only
`st.error` is shown (nothing appended). -/
def post_mode_step (sid uid : String) (ctx : PostCtx) (history : List Turn)
    (prompt : Option String) (api : ApiResult) : List Turn × List Payload :=
  match prompt with
  | none => (history, [])
  | some p =>
      if p = "" then (history, [])
      else
        let h1 := history ++ [⟨.user, .str p⟩]
        let payload : Payload :=
          [("session_id", .str sid), ("user_id", .str uid),
           ("slot_id", .str ctx.slot_id),
           ("post_consultation_text", .str ctx.post_text), ("input", .str p)]
        match api with
        | .success data =>
            (h1 ++ [⟨.assistant, .str (_prepare_response_content data)⟩], [payload])
        | .failure _ => (h1, [payload])

/-- Count of processed-file entries with a truthy `success` value
(`sum(1 for f in processed_files if f.get("success"))`, dep.py line 491).
Non-dict entries would raise in Python; theorems about this definition
restrict to dict entries. -/
def countSuccessful (files : List JVal) : Nat :=
  files.countP fun f =>
    match f with
    | .obj fs => pyTruthy (jgetD fs "success")
    | _ => false

/-- Embedding of the upload-metrics computation (dep.py lines 487-500): the
block runs only when `processed_files` is truthy (a non-empty list); totals
default to the file count and truthy-success count unless the server supplies
`total_processed` / `total_successful`; the success rate is
`total_successful / total_processed * 100` with a truthiness guard making it 0
when the total is 0.  Division is modelled in `ℚ` (Python float true
division); `none` models paths where the block is skipped or Python would
raise (non-numeric totals). -/
def upload_success_rate (fields : List (String × JVal)) : Option ℚ :=
  match jget fields "processed_files" with
  | some (.arr files) =>
      if files.isEmpty then none
      else
        let tpJ := (jget fields "total_processed").getD (.num files.length)
        let tsJ := (jget fields "total_successful").getD (.num (countSuccessful files))
        match tpJ, tsJ with
        | .num tp, .num ts => some (if tp = 0 then 0 else (ts : ℚ) / (tp : ℚ) * 100)
        | _, _ => none
  | _ => none

/-- Removal of a key from a field list (the input "with that field absent"
in the field-emptiness claim). -/
def eraseKey (key : String) (fields : List (String × JVal)) : List (String × JVal) :=
  fields.filter fun p => p.1 != key

/-- Whether a processed-file entry is a dict carrying `success: true`
(the spec's "entries with success true"). -/
def successTrue (f : JVal) : Bool :=
  match f with
  | .obj fs => decide (jget fs "success" = some (.bool true))
  | _ => false

/-- The expected follow-up payload of the C7 example scenario. -/
def c7Payload : Payload :=
  [("session_id", .str "sess"), ("user_id", .str "usr"),
   ("input", .str "B"), ("mcq_selected_option", .str "B"),
   ("mcq_selected_index", .num 1), ("mcq_question", .str "Pick one")]

theorem jget_eraseKey_self (f : String) (fields : List (String × JVal)) :
    jget (eraseKey f fields) f = none := by
  induction fields with
  | nil => rfl
  | cons p rest ih =>
      obtain ⟨k, w⟩ := p
      by_cases hk : k = f
      · simpa [eraseKey, hk] using ih
      · simpa [eraseKey, jget, hk] using ih

theorem jget_eraseKey_ne (f k : String) (fields : List (String × JVal)) (h : k ≠ f) :
    jget (eraseKey f fields) k = jget fields k := by
  induction fields with
  | nil => rfl
  | cons p rest ih =>
      obtain ⟨k', w⟩ := p
      by_cases hk : k' = f
      · subst hk
        have h1 : eraseKey k' ((k', w) :: rest) = eraseKey k' rest := by
          simp [eraseKey]
        rw [h1, ih]
        rw [jget, if_neg (fun hkk => h hkk.symm)]
      · have h1 : eraseKey f ((k', w) :: rest) = (k', w) :: eraseKey f rest := by
          simp [eraseKey, hk]
        rw [h1, jget, jget]
        by_cases hkk : k' = k
        · simp [hkk]
        · rw [if_neg hkk, if_neg hkk]
          exact ih

theorem prcProjected_eraseKey (f : String) (v : JVal) (fields : List (String × JVal))
    (hv : jget fields f = some v) (he : emptyLike v = true) :
    prcProjected (eraseKey f fields) = prcProjected fields := by
  unfold prcProjected
  apply List.filterMap_congr
  intro k _
  by_cases hk : k = f
  · subst hk
    rw [jget_eraseKey_self, hv]
    simp [he]
  · rw [jget_eraseKey_ne f k fields hk]

/-- C4: on an HTTP 200 response whose body is not valid JSON,
`make_api_request` propagates no exception (it is a total function whose
decode failure is caught by its own `RequestException` handler) and returns a
failure result surfacing the decode error message; on every non-200 response
it returns a failure result embedding the status code and the raw body text. -/
theorem make_api_request_error_contract (loads : String → Option JVal)
    (jsonErrMsg : String → String) (status : Nat) (body : String) :
    (status = 200 → loads body = none →
      make_api_request loads jsonErrMsg (.response status body) =
        .failure ("Request failed: " ++ jsonErrMsg body)) ∧
    (status ≠ 200 →
      make_api_request loads jsonErrMsg (.response status body) =
        .failure ("HTTP " ++ toString status ++ ": " ++ body)) := by
  constructor
  · intro h200 hj
    simp [make_api_request, h200, hj]
  · intro hne
    simp [make_api_request, hne]

theorem make_api_request_error_contract_witness :
    make_api_request (fun _ => none) (fun _ => "Expecting value") (.response 200 "oops") =
      .failure ("Request failed: " ++ (fun _ => "Expecting value") "oops") ∧
    make_api_request (fun _ => none) (fun _ => "Expecting value") (.response 500 "boom") =
      .failure ("HTTP " ++ toString 500 ++ ": " ++ "boom") :=
  ⟨(make_api_request_error_contract (fun _ => none) (fun _ => "Expecting value")
      200 "oops").1 rfl rfl,
   (make_api_request_error_contract (fun _ => none) (fun _ => "Expecting value")
      500 "boom").2 (by decide)⟩

/-- C5: for every decoder and every input value, `_normalize_nested_json`
terminates (it is a total function) after a chain of at most 3 continuing
unwrap passes, and as soon as a pass fails to continue unwrapping the loop
stops and returns that pass's break value. -/
theorem normalize_nested_json_bounded (loads : String → Option JVal) (payload : JVal) :
    ∃ n ≤ 3, ∃ v', nnjContIter loads n payload = some v' ∧
      ((n < 3 ∧ ∃ w, nnjPass loads v' = .inl w ∧
          _normalize_nested_json loads payload = w) ∨
       (n = 3 ∧ _normalize_nested_json loads payload = v')) := by
  unfold _normalize_nested_json
  rcases h0 : nnjPass loads payload with w0 | w0
  · exact ⟨0, by omega, payload, rfl,
      .inl ⟨by omega, w0, h0, by simp [nnjRun, h0]⟩⟩
  · rcases h1 : nnjPass loads w0 with w1 | w1
    · exact ⟨1, by omega, w0, by simp [nnjContIter, h0],
        .inl ⟨by omega, w1, h1, by simp [nnjRun, h0, h1]⟩⟩
    · rcases h2 : nnjPass loads w1 with w2 | w2
      · exact ⟨2, by omega, w1, by simp [nnjContIter, h0, h1],
          .inl ⟨by omega, w2, h2, by simp [nnjRun, h0, h1, h2]⟩⟩
      · exact ⟨3, by omega, w2, by simp [nnjContIter, h0, h1, h2],
          .inr ⟨rfl, by simp [nnjRun, h0, h1, h2]⟩⟩

/-- C7: in the example scenario (pending MCQ "Pick one" with options
["A", "B"], no slot id), submitting the selection "B" issues exactly one
follow-up call whose payload carries `input = "B"`,
`mcq_selected_option = "B"`, `mcq_selected_index = 1` (the zero-based index of
"B"), and `mcq_question = "Pick one"`. -/
theorem mcq_submit_payload_example :
    (render_mcq_submit (fun _ => none) "sess" "usr"
        (.obj [("question_type", .str "mcq"), ("mcq_question", .str "Pick one"),
               ("mcq_options", .arr [.str "A", .str "B"])])
        none true (some (.str "B"))
        ⟨some [], none, none, none, false⟩ (.success (.obj []))).calls = [c7Payload] ∧
    jget c7Payload "input" = some (.str "B") ∧
    jget c7Payload "mcq_selected_option" = some (.str "B") ∧
    jget c7Payload "mcq_selected_index" = some (.num 1) ∧
    jget c7Payload "mcq_question" = some (.str "Pick one") := by
  decide

/-- C8: in booking mode with a slot id set and an empty booking log, exactly
one automatic call is issued, whose payload carries `session_id`, `user_id`
and `slot_id` and contains no `input` key at all. -/
theorem booking_autofetch_payload (sid uid slot : String) (history : List Turn)
    (h : history = []) :
    booking_autofetch sid uid slot history =
      [[("session_id", .str sid), ("user_id", .str uid), ("slot_id", .str slot)]] ∧
    ∀ p ∈ booking_autofetch sid uid slot history,
      jget p "input" = none ∧ jget p "session_id" = some (.str sid) ∧
      jget p "user_id" = some (.str uid) ∧ jget p "slot_id" = some (.str slot) := by
  subst h
  refine ⟨rfl, ?_⟩
  intro p hp
  simp only [booking_autofetch, List.isEmpty_nil, if_true, List.mem_singleton] at hp
  subst hp
  refine ⟨?_, ?_, ?_, ?_⟩ <;> simp [jget]

theorem countSuccessful_eq_countP (files : List JVal)
    (hb : ∀ f ∈ files, ∀ fs, f = JVal.obj fs →
      jget fs "success" = none ∨ ∃ b, jget fs "success" = some (.bool b))
    (hobj : ∀ f ∈ files, ∃ fs, f = JVal.obj fs) :
    countSuccessful files = files.countP successTrue := by
  induction files with
  | nil => rfl
  | cons f rest ih =>
      have hrec := ih (fun g hg => hb g (by simp [hg])) (fun g hg => hobj g (by simp [hg]))
      obtain ⟨fs, hfs⟩ := hobj f (by simp)
      subst hfs
      unfold countSuccessful at hrec ⊢
      rw [List.countP_cons, List.countP_cons, hrec]
      congr 1
      rcases hb (JVal.obj fs) (by simp) fs rfl with hnone | ⟨b, hsome⟩
      · simp [successTrue, jgetD, hnone, pyTruthy]
      · cases b <;> simp [successTrue, jgetD, hsome, pyTruthy]

/-- C9: the upload flow's success rate equals successful divided by total
times 100, where the total defaults to the number of processed files and the
successful count to the number of entries with `success` true unless the
server supplies `total_processed` / `total_successful`, and a zero total
yields rate 0 with no division error (the guard, not a crash, produces the
0). -/
theorem upload_success_rate_spec (fields : List (String × JVal)) (files : List JVal)
    (tp ts : Int)
    (h : jget fields "processed_files" = some (.arr files))
    (hne : files.isEmpty = false)
    (htp : (jget fields "total_processed").getD (.num files.length) = .num tp)
    (hts : (jget fields "total_successful").getD (.num (countSuccessful files)) = .num ts)
    (hb : ∀ f ∈ files, ∀ fs, f = JVal.obj fs →
      jget fs "success" = none ∨ ∃ b, jget fs "success" = some (.bool b))
    (hobj : ∀ f ∈ files, ∃ fs, f = JVal.obj fs) :
    upload_success_rate fields =
      some (if tp = 0 then 0 else (ts : ℚ) / (tp : ℚ) * 100) ∧
    countSuccessful files = files.countP successTrue := by
  refine ⟨?_, countSuccessful_eq_countP files hb hobj⟩
  rw [upload_success_rate, h]
  simp only [hne, Bool.false_eq_true, if_false]
  rw [htp, hts]

theorem upload_success_rate_spec_witness :
    upload_success_rate
        [("processed_files", .arr
          [.obj [("success", .bool true)], .obj [("success", .bool true)],
           .obj [("success", .bool true)], .obj [("success", .bool false)],
           .obj []])] = some 60 ∧
    upload_success_rate
        [("processed_files", .arr [.obj []]), ("total_processed", .num 0)] =
      some 0 := by
  constructor
  · have h := (upload_success_rate_spec
        [("processed_files", .arr
          [.obj [("success", .bool true)], .obj [("success", .bool true)],
           .obj [("success", .bool true)], .obj [("success", .bool false)],
           .obj []])]
        [.obj [("success", .bool true)], .obj [("success", .bool true)],
         .obj [("success", .bool true)], .obj [("success", .bool false)],
         .obj []] 5 3 rfl rfl rfl rfl
        (by
          intro f hf fs hfs
          fin_cases hf <;> injection hfs with hh <;> subst hh <;> simp [jget])
        (by
          intro f hf
          fin_cases hf <;> exact ⟨_, rfl⟩)).1
    rw [h]
    norm_num
  · have h := (upload_success_rate_spec
        [("processed_files", .arr [.obj []]), ("total_processed", .num 0)]
        [.obj []] 0 0 rfl rfl rfl rfl
        (by
          intro f hf fs hfs
          fin_cases hf <;> injection hfs with hh <;> subst hh <;> simp [jget])
        (by
          intro f hf
          fin_cases hf <;> exact ⟨_, rfl⟩)).1
    rw [h]
    norm_num

/-- C10: when an MCQ selection is submitted in ask mode (no slot id, no
post-consultation context) and the call succeeds, the selected option is
appended to the ask log as a user turn but the assistant's normalized reply
is appended to no conversation log at all. -/
theorem mcq_ask_mode_drops_reply (loads : String → Option JVal) (sid uid : String)
    (raw : JVal) (fields : List (String × JVal)) (opts : List JVal) (sel : JVal)
    (l : List Turn) (data : JVal)
    (hn : _normalize_nested_json loads raw = .obj fields)
    (hq : jgetD fields "question_type" = .str "mcq")
    (ho : jgetD fields "mcq_options" = .arr opts)
    (hopts : opts.isEmpty = false)
    (hsel : pyTruthy sel = true) :
    (render_mcq_submit loads sid uid raw none true (some sel)
        ⟨some l, none, none, none, false⟩ (.success data)).state =
      ⟨some (l ++ [⟨.user, sel⟩]), none, none, none, false⟩ ∧
    (render_mcq_submit loads sid uid raw none true (some sel)
        ⟨some l, none, none, none, false⟩ (.success data)).calls.length = 1 := by
  have hot : pyTruthy (.arr opts) = true := by
    simp [pyTruthy, hopts]
  constructor <;>
    simp [render_mcq_submit, hn, hq, ho, pyOr, hot, hsel,
      mcqUserAppend, mcqAssistantAppend, strTruthy]

theorem mcq_ask_mode_drops_reply_witness :
    (render_mcq_submit (fun _ => none) "s" "u"
        (.obj [("question_type", .str "mcq"), ("mcq_options", .arr [.str "X"])])
        none true (some (.str "X"))
        ⟨some [], none, none, none, false⟩ (.success (.obj []))).state =
      ⟨some ([] ++ [⟨.user, .str "X"⟩]), none, none, none, false⟩ ∧
    (render_mcq_submit (fun _ => none) "s" "u"
        (.obj [("question_type", .str "mcq"), ("mcq_options", .arr [.str "X"])])
        none true (some (.str "X"))
        ⟨some [], none, none, none, false⟩ (.success (.obj []))).calls.length = 1 :=
  mcq_ask_mode_drops_reply (fun _ => none) "s" "u"
    (.obj [("question_type", .str "mcq"), ("mcq_options", .arr [.str "X"])])
    [("question_type", .str "mcq"), ("mcq_options", .arr [.str "X"])]
    [.str "X"] (.str "X") [] (.obj []) rfl rfl rfl rfl rfl

/-- C1 counterexample: the claim asserts MCQ gating in every mode, but in ask
mode the chat input is unconditional — with the last assistant message
normalizing to an MCQ mapping with non-empty options, a free-text prompt is
still accepted and issues an outbound call. -/
theorem ask_mode_accepts_freetext_with_pending_mcq :
    _normalize_nested_json (fun _ => none)
        (.obj [("question_type", .str "mcq"),
               ("mcq_options", .arr [.str "A", .str "B"])]) =
      .obj [("question_type", .str "mcq"),
            ("mcq_options", .arr [.str "A", .str "B"])] ∧
    jgetD [("question_type", .str "mcq"),
           ("mcq_options", .arr [.str "A", .str "B"])] "question_type" = .str "mcq" ∧
    pyTruthy (.arr [.str "A", .str "B"]) = true ∧
    (ask_mode_step "s" "u"
        [⟨.assistant, .obj [("question_type", .str "mcq"),
                            ("mcq_options", .arr [.str "A", .str "B"])]⟩]
        (some "hello") (.success (.obj []))).2.length = 1 := by
  decide

/-- C1 amended: in booking mode (the only mode with the gate), whenever the
last stored turn is an assistant message normalizing to a mapping with
`question_type = "mcq"` and non-empty `mcq_options`, the free-text gate is
closed and no free-text call can be issued. -/
theorem booking_mcq_blocks_freetext (loads : String → Option JVal)
    (sid uid slot : String) (history : List Turn) (prompt : Option String)
    (api : ApiResult) (last : Turn) (fields : List (String × JVal)) (opts : List JVal)
    (hl : history.getLast? = some last) (hrole : last.role = .assistant)
    (hn : _normalize_nested_json loads last.content = .obj fields)
    (hq : jgetD fields "question_type" = .str "mcq")
    (ho : jgetD fields "mcq_options" = .arr opts) (hopts : opts.isEmpty = false) :
    bookingShowFreeInput loads history = false ∧
    booking_freetext_step loads sid uid slot history prompt api = (history, []) := by
  have hgate : bookingShowFreeInput loads history = false := by
    obtain ⟨role, content⟩ := last
    simp only at hrole
    subst hrole
    simp only at hn
    simp [bookingShowFreeInput, hl, hn, hq]
  exact ⟨hgate, by simp [booking_freetext_step, hgate]⟩

theorem booking_mcq_blocks_freetext_witness :
    bookingShowFreeInput (fun _ => none)
      [⟨.assistant, .obj [("question_type", .str "mcq"),
                          ("mcq_options", .arr [.str "A"])]⟩] = false ∧
    booking_freetext_step (fun _ => none) "s" "u" "slot_1"
      [⟨.assistant, .obj [("question_type", .str "mcq"),
                          ("mcq_options", .arr [.str "A"])]⟩]
      (some "free text") (.success (.obj [])) =
      ([⟨.assistant, .obj [("question_type", .str "mcq"),
                           ("mcq_options", .arr [.str "A"])]⟩], []) :=
  booking_mcq_blocks_freetext (fun _ => none) "s" "u" "slot_1" _ (some "free text")
    (.success (.obj [])) _
    [("question_type", .str "mcq"), ("mcq_options", .arr [.str "A"])]
    [.str "A"] rfl rfl rfl rfl rfl rfl

/-- C2 counterexample: the claim asserts the terminal lock in every mode, but
in post-consultation mode the chat input is unconditional — after an
assistant message whose normalized content reports `status = "end"`, a
further prompt still issues an outbound call. -/
theorem post_mode_calls_after_terminal :
    terminalProgress [("status", .str "end")] = true ∧
    _normalize_nested_json (fun _ => none) (.obj [("status", .str "end")]) =
      .obj [("status", .str "end")] ∧
    (post_mode_step "s" "u" ⟨"slot_9", "notes"⟩
        [⟨.assistant, .obj [("status", .str "end")]⟩] (some "more")
        (.success (.obj []))).2.length = 1 := by
  decide

/-- C2 amended: in booking mode (the only mode with the lock), once the last
stored turn is an assistant message whose normalized content reports
`assessment_progress` or `status` case-insensitively in
{"end", "complete", "completed"}, the free-text gate is closed and no further
free-text call is issued from that log (MCQ submission widgets rendered from
earlier history turns are not covered by the lock). -/
theorem booking_terminal_locks_freetext (loads : String → Option JVal)
    (sid uid slot : String) (history : List Turn) (prompt : Option String)
    (api : ApiResult) (last : Turn) (fields : List (String × JVal)) (p : String)
    (hl : history.getLast? = some last) (hrole : last.role = .assistant)
    (hn : _normalize_nested_json loads last.content = .obj fields)
    (hp : pyOr (jgetD fields "assessment_progress") (jgetD fields "status") = .str p)
    (hterm : ["end", "complete", "completed"].contains (pyLower p) = true) :
    bookingShowFreeInput loads history = false ∧
    booking_freetext_step loads sid uid slot history prompt api = (history, []) := by
  have ht : terminalProgress fields = true := by
    unfold terminalProgress
    rw [hp]
    exact hterm
  have hgate : bookingShowFreeInput loads history = false := by
    obtain ⟨role, content⟩ := last
    simp only at hrole
    subst hrole
    simp only at hn
    simp [bookingShowFreeInput, hl, hn, ht]
  exact ⟨hgate, by simp [booking_freetext_step, hgate]⟩

theorem booking_terminal_locks_freetext_witness :
    bookingShowFreeInput (fun _ => none)
      [⟨.assistant, .obj [("assessment_progress", .str "Complete")]⟩] = false ∧
    booking_freetext_step (fun _ => none) "s" "u" "slot_2"
      [⟨.assistant, .obj [("assessment_progress", .str "Complete")]⟩]
      (some "anything") (.success (.obj [])) =
      ([⟨.assistant, .obj [("assessment_progress", .str "Complete")]⟩], []) :=
  booking_terminal_locks_freetext (fun _ => none) "s" "u" "slot_2" _ (some "anything")
    (.success (.obj [])) _
    [("assessment_progress", .str "Complete")] "Complete"
    rfl rfl rfl rfl (by decide)

/-- C3 counterexample: a failing MCQ-selection submission shows the error via
an alert but appends no assistant turn containing the error text to any log —
the ask log retains only the just-added user turn. -/
theorem mcq_failure_shows_error_without_logging :
    render_mcq_submit (fun _ => none) "s" "u"
        (.obj [("question_type", .str "mcq"),
               ("mcq_options", .arr [.str "Yes", .str "No"])])
        none true (some (.str "Yes")) ⟨some [], none, none, none, false⟩
        (.failure "boom") =
      ⟨true, ⟨some [⟨.user, .str "Yes"⟩], none, none, none, false⟩,
       [[("session_id", .str "s"), ("user_id", .str "u"), ("input", .str "Yes"),
         ("mcq_selected_option", .str "Yes"), ("mcq_selected_index", .num 0),
         ("mcq_question", .str "Please select an option:")]], some "boom"⟩ := by
  decide

/-- C3 amended: failing free-text calls in ask mode and booking mode do append
an assistant turn containing the error text (prefixed "Error: ") after the
user turn, leaving the user able to retry; failing MCQ submissions, booking
bootstrap calls and post-consultation turns only display the error without
appending it. -/
theorem freetext_failure_appends_error_turn (loads : String → Option JVal)
    (sid uid slot : String) (history : List Turn) (p err : String)
    (hp : p ≠ "") :
    (ask_mode_step sid uid history (some p) (.failure err)).1 =
      history ++ [⟨.user, .str p⟩, ⟨.assistant, .str ("Error: " ++ err)⟩] ∧
    (bookingShowFreeInput loads history = true →
      (booking_freetext_step loads sid uid slot history (some p) (.failure err)).1 =
        history ++ [⟨.user, .str p⟩, ⟨.assistant, .str ("Error: " ++ err)⟩]) := by
  constructor
  · simp [ask_mode_step, hp]
  · intro hg
    simp [booking_freetext_step, hg, hp]

theorem freetext_failure_appends_error_turn_witness :
    (ask_mode_step "s" "u" [] (some "hi") (.failure "err")).1 =
      [] ++ [⟨.user, .str "hi"⟩, ⟨.assistant, .str ("Error: " ++ "err")⟩] ∧
    (bookingShowFreeInput (fun _ => none) ([] : List Turn) = true →
      (booking_freetext_step (fun _ => none) "s" "u" "sl" [] (some "hi")
          (.failure "err")).1 =
        [] ++ [⟨.user, .str "hi"⟩, ⟨.assistant, .str ("Error: " ++ "err")⟩]) :=
  freetext_failure_appends_error_turn (fun _ => none) "s" "u" "sl" [] "hi" "err"
    (by decide)

/-- C6 counterexample: the field-emptiness equivalence fails on the raw
fallback path — a mapping whose only key is `answer` with the empty string
normalizes differently from the same mapping with the field absent. -/
theorem prepare_content_empty_answer_differs :
    "answer" ∈ prcAllowList ∧ emptyLike (.str "") = true ∧
    _prepare_response_content (.obj [("answer", .str "")]) ≠
      _prepare_response_content (.obj (eraseKey "answer" [("answer", .str "")])) := by
  refine ⟨by decide, by decide, ?_⟩
  have h0 : eraseKey "answer" [("answer", .str "")] = [] := by decide
  have h1 : _prepare_response_content (.obj [("answer", .str "")]) =
      "\x7b\"answer\": \"\"\x7d" := by
    rw [_prepare_response_content]
    decide
  have h2 : _prepare_response_content (.obj []) = "\x7b\x7d" := by
    rw [_prepare_response_content]
    decide
  rw [h0, h1, h2]
  decide

/-- C6 amended: the field-emptiness equivalence holds whenever the allow-list
projection collects at least one field (the payload is non-empty): a canonical
field valued `null`, `""`, `[]` or `\x7b\x7d` then normalizes identically to the
field being absent.  When nothing is collected, the raw fallbacks can expose
the empty field. -/
theorem prepare_content_empty_field_equiv (fields : List (String × JVal))
    (f : String) (v : JVal)
    (hf : f ∈ prcAllowList ++ ["status", "response"])
    (hv : jget fields f = some v) (he : emptyLike v = true)
    (hne : (prcProjected fields).isEmpty = false) :
    _prepare_response_content (.obj fields) =
      _prepare_response_content (.obj (eraseKey f fields)) := by
  have hproj := prcProjected_eraseKey f v fields hv he
  have hne2 : (prcProjected (eraseKey f fields)).isEmpty = false := by
    rw [hproj]
    exact hne
  rw [_prepare_response_content, _prepare_response_content]
  simp [hne, hne2, hproj]

theorem prepare_content_empty_field_equiv_witness :
    _prepare_response_content (.obj [("answer", .str "hi"), ("status", .str "")]) =
      _prepare_response_content
        (.obj (eraseKey "status" [("answer", .str "hi"), ("status", .str "")])) :=
  prepare_content_empty_field_equiv [("answer", .str "hi"), ("status", .str "")]
    "status" (.str "") (by decide) rfl (by decide) (by decide)

theorem booking_autofetch_payload_witness :
    booking_autofetch "s" "u" "slot_123" [] =
      [[("session_id", .str "s"), ("user_id", .str "u"),
        ("slot_id", .str "slot_123")]] ∧
    ∀ p ∈ booking_autofetch "s" "u" "slot_123" [],
      jget p "input" = none ∧ jget p "session_id" = some (.str "s") ∧
      jget p "user_id" = some (.str "u") ∧ jget p "slot_id" = some (.str "slot_123") :=
  booking_autofetch_payload "s" "u" "slot_123" [] rfl

end OrchPoc
